import Mathlib

/-!
Shallow embedding of the vukanet backend's stock–sale–debt consistency engine
and offline-sync reconciler, translated from the Express/Prisma route handlers
(sale routes, debt routes, stock routes, sync routes) and the Prisma schema.

Modelling conventions:
* JavaScript numbers (Prisma `Float`/`Int`) are embedded as `Int`; all the
  arithmetic the handlers perform on them (+, -, *, comparisons, `Math.abs`,
  `Math.max`) is exact ring arithmetic, and every scenario in the spec uses
  integer values.
* The relational store is a record of lists; Prisma `findUnique`/`update` by
  primary key become `List.find?` / a map over the list guarded by the id.
* Early HTTP error returns become `Except` errors; a `$transaction` whose
  writes all happen in one handler becomes a single pure state update.
* JavaScript truthiness of optional strings (`data.clientName || 'Unknown'`,
  `item.data.storeId && ...`) is modelled explicitly: `none` and `some ""`
  are falsy.
-/

namespace Vukanet

/-- User role (`Role` enum in the Prisma schema). -/
inductive Role
  | ADMIN
  | SELLER
deriving DecidableEq

/-- Authenticated caller identity attached by the auth middleware
(`req.user`: id, role, optional storeId). -/
structure AuthUser where
  id : String
  role : Role
  storeId : Option String
deriving DecidableEq

/-- `SaleType` enum. -/
inductive SaleType
  | UNIT
  | PACKAGE
deriving DecidableEq

/-- `PaymentType` enum. -/
inductive PaymentType
  | CASH
  | MOBILE_MONEY
  | BANK_TRANSFER
  | CREDIT_CARD
deriving DecidableEq

/-- `MovementType` enum. -/
inductive MovementType
  | IN
  | OUT
  | ADJUSTMENT
  | TRANSFER
deriving DecidableEq

/-- `DebtStatus` enum. -/
inductive DebtStatus
  | PENDING
  | PARTIAL
  | PAID
  | OVERDUE
deriving DecidableEq

/-- `Product` row (fields relevant to the stock engine). -/
structure Product where
  id : String
  category : String
  unitsPerPackage : Int
  currentStock : Int
  packagePurchasePrice : Int
  unitSalePrice : Int
  packageSalePrice : Int
  minStockAlert : Int
  isActive : Bool
  storeId : String
deriving DecidableEq

/-- `Sale` row. -/
structure Sale where
  id : String
  quantity : Int
  unitPrice : Int
  totalAmount : Int
  saleType : SaleType
  paymentType : PaymentType
  clientName : Option String
  clientPhone : Option String
  notes : Option String
  isDebt : Bool
  productId : String
  sellerId : String
  storeId : String
deriving DecidableEq

/-- `StockMovement` row (append-only audit entry). -/
structure StockMovement where
  type : MovementType
  quantity : Int
  unitPrice : Int
  totalValue : Int
  reason : Option String
  reference : Option String
  productId : String
  userId : String
  storeId : String
deriving DecidableEq

/-- `Debt` row. -/
structure Debt where
  id : String
  amount : Int
  paidAmount : Int
  remainingAmount : Int
  status : DebtStatus
  clientName : String
  clientPhone : Option String
  notes : Option String
  saleId : String
  storeId : String
deriving DecidableEq

/-- `DebtPayment` row (append-only). -/
structure DebtPayment where
  debtId : String
  amount : Int
  paymentType : PaymentType
  notes : Option String
deriving DecidableEq

/-- The relational store: the tables the sale/stock/debt handlers touch. -/
structure ServerState where
  products : List Product
  sales : List Sale
  movements : List StockMovement
  debts : List Debt
  payments : List DebtPayment
deriving DecidableEq

/-- Classified errors the handlers return before or instead of writing. -/
inductive ApiError
  | validation
  | unauthorized
  | productNotFound
  | debtNotFound
  | insufficientStock
  | paymentExceedsRemaining
  | someProductsNotInStore
deriving DecidableEq

/-- JS `a || d` on an optional string (`none` and `""` are falsy). -/
def jsOrString (o : Option String) (d : String) : String :=
  match o with
  | some s => if s = "" then d else s
  | none => d

/-- JS `a || d` where the default is itself optional. -/
def jsOrOptString (o : Option String) (d : Option String) : Option String :=
  match o with
  | some s => if s = "" then d else some s
  | none => d

/-- JS truthiness of an optional string. -/
def jsTruthyStr : Option String → Bool
  | some s => s ≠ ""
  | none => false

/-- Store-access check used by every mutating handler:
admin bypasses store scoping, everyone else must own the store. -/
def storeAccessOk (user : AuthUser) (storeId : String) : Bool :=
  user.role == Role.ADMIN || user.storeId == some storeId

/-- `prisma.product.findUnique({ where: { id } })`. -/
def findProduct (st : ServerState) (productId : String) : Option Product :=
  st.products.find? fun p => p.id == productId

/-- Body of `saleSchema` (sale routes): quantity, saleType, paymentType,
optional client fields, isDebt, storeId. -/
structure SaleInput where
  productId : String
  quantity : Int
  saleType : SaleType
  paymentType : PaymentType
  clientName : Option String
  clientPhone : Option String
  notes : Option String
  isDebt : Option Bool
  storeId : String
deriving DecidableEq

/-- `requiredStock = saleType === 'PACKAGE' ? quantity * unitsPerPackage : quantity`. -/
def requiredStockOf (saleType : SaleType) (quantity unitsPerPackage : Int) : Int :=
  match saleType with
  | .PACKAGE => quantity * unitsPerPackage
  | .UNIT => quantity

/-- `unitPrice = saleType === 'PACKAGE' ? packageSalePrice : unitSalePrice`. -/
def salePriceOf (saleType : SaleType) (product : Product) : Int :=
  match saleType with
  | .PACKAGE => product.packageSalePrice
  | .UNIT => product.unitSalePrice

/-- POST `/` of the sale routes: validate, check store access, look up the
product, check stock, then in one transaction create the sale, decrement the
product stock, append the OUT movement, and (if `isDebt`) create the debt.
`saleId`/`debtId` stand for the generated UUIDs. -/
def createSale (st : ServerState) (user : AuthUser) (data : SaleInput)
    (saleId debtId : String) : Except ApiError (Sale × ServerState) :=
  if data.quantity ≤ 0 then .error .validation
  else if ¬ storeAccessOk user data.storeId then .error .unauthorized
  else
    match findProduct st data.productId with
    | none => .error .productNotFound
    | some product =>
      if product.currentStock < requiredStockOf data.saleType data.quantity product.unitsPerPackage then
        .error .insufficientStock
      else
        let requiredStock := requiredStockOf data.saleType data.quantity product.unitsPerPackage
        let unitPrice := salePriceOf data.saleType product
        let totalAmount := unitPrice * data.quantity
        let sale : Sale :=
          { id := saleId, quantity := data.quantity, unitPrice := unitPrice,
            totalAmount := totalAmount, saleType := data.saleType,
            paymentType := data.paymentType, clientName := data.clientName,
            clientPhone := data.clientPhone, notes := data.notes,
            isDebt := data.isDebt.getD false, productId := data.productId,
            sellerId := user.id, storeId := data.storeId }
        let movement : StockMovement :=
          { type := .OUT, quantity := requiredStock, unitPrice := product.unitSalePrice,
            totalValue := totalAmount, reason := some "Sale", reference := some saleId,
            productId := data.productId, userId := user.id, storeId := data.storeId }
        let debtsNew :=
          if data.isDebt.getD false then
            st.debts ++
              [{ id := debtId, amount := totalAmount, paidAmount := 0,
                 remainingAmount := totalAmount, status := .PENDING,
                 clientName := jsOrString data.clientName "Unknown",
                 clientPhone := data.clientPhone, notes := data.notes,
                 saleId := saleId, storeId := data.storeId }]
          else st.debts
        .ok (sale,
          { st with
            sales := st.sales ++ [sale],
            products := st.products.map fun p =>
              if p.id == data.productId then
                { p with currentStock := p.currentStock - requiredStock }
              else p,
            movements := st.movements ++ [movement],
            debts := debtsNew })

/-- Body of `stockMovementSchema` (stock routes). -/
structure MovementInput where
  productId : String
  type : MovementType
  quantity : Int
  unitPrice : Option Int
  reason : Option String
  reference : Option String
  storeId : String
deriving DecidableEq

/-- `z.number().positive().optional()` on `unitPrice`. -/
def movementInputValid (data : MovementInput) : Bool :=
  match data.unitPrice with
  | some p => decide (0 < p)
  | none => true

/-- The `switch (data.type)` computing the signed stock change. -/
def stockChangeOf (type : MovementType) (quantity : Int) : Int :=
  match type with
  | .IN => |quantity|
  | .OUT => -|quantity|
  | .ADJUSTMENT => quantity
  | .TRANSFER => -|quantity|

/-- POST `/` of the stock routes: validate, check store access, look up the
product, reject OUT movements exceeding stock, then in one transaction append
the movement (with the quantity stored as a magnitude) and set the stock to
`Math.max(0, currentStock + stockChange)`. -/
def createStockMovement (st : ServerState) (user : AuthUser) (data : MovementInput) :
    Except ApiError (StockMovement × ServerState) :=
  if ¬ movementInputValid data then .error .validation
  else if ¬ storeAccessOk user data.storeId then .error .unauthorized
  else
    match findProduct st data.productId with
    | none => .error .productNotFound
    | some product =>
      if data.type = .OUT ∧ product.currentStock < |data.quantity| then
        .error .insufficientStock
      else
        let stockChange := stockChangeOf data.type data.quantity
        let unitPrice := data.unitPrice.getD product.unitSalePrice
        let totalValue := unitPrice * |data.quantity|
        let movement : StockMovement :=
          { type := data.type, quantity := |data.quantity|, unitPrice := unitPrice,
            totalValue := totalValue, reason := data.reason, reference := data.reference,
            productId := data.productId, userId := user.id, storeId := data.storeId }
        let newStock := max 0 (product.currentStock + stockChange)
        .ok (movement,
          { st with
            movements := st.movements ++ [movement],
            products := st.products.map fun p =>
              if p.id == data.productId then { p with currentStock := newStock } else p })

/-- One entry of the bulk-adjustment payload. -/
structure AdjustmentInput where
  productId : String
  newStock : Int
  reason : Option String
deriving DecidableEq

/-- Body of the bulk-adjustment payload. -/
structure BulkInput where
  storeId : String
  adjustments : List AdjustmentInput
deriving DecidableEq

/-- The ADJUSTMENT audit row one bulk-adjustment entry writes: quantity is
the magnitude of `newStock - currentStock`, priced at the product's current
unit sale price. -/
def bulkMovementOf (user : AuthUser) (storeIdArg : String) (product : Product)
    (adjustment : AdjustmentInput) : StockMovement :=
  { type := .ADJUSTMENT, quantity := |adjustment.newStock - product.currentStock|,
    unitPrice := product.unitSalePrice,
    totalValue := |adjustment.newStock - product.currentStock| * product.unitSalePrice,
    reason := some (jsOrString adjustment.reason "Bulk adjustment"),
    reference := none, productId := adjustment.productId,
    userId := user.id, storeId := storeIdArg }

/-- Loop body of the bulk-adjustment transaction: look the product up in the
pre-read list, skip zero differences, otherwise append one ADJUSTMENT movement
and overwrite the stock with the target value. -/
def bulkStep (products : List Product) (user : AuthUser) (storeIdArg : String)
    (acc : List StockMovement × ServerState) (adjustment : AdjustmentInput) :
    List StockMovement × ServerState :=
  match products.find? (fun p => p.id == adjustment.productId) with
  | none => acc
  | some product =>
    if adjustment.newStock - product.currentStock = 0 then acc
    else
      (acc.1 ++ [bulkMovementOf user storeIdArg product adjustment],
        { acc.2 with
          movements := acc.2.movements ++ [bulkMovementOf user storeIdArg product adjustment],
          products := acc.2.products.map fun p =>
            if p.id == adjustment.productId then
              { p with currentStock := adjustment.newStock }
            else p })

/-- POST `/bulk-adjustment` of the stock routes: validate (`newStock >= 0`),
check store access, check every referenced product belongs to the store, then
process all adjustments in one transaction. -/
def bulkAdjustment (st : ServerState) (user : AuthUser) (data : BulkInput) :
    Except ApiError (List StockMovement × ServerState) :=
  if data.adjustments.any (fun a => a.newStock < 0) then .error .validation
  else if ¬ storeAccessOk user data.storeId then .error .unauthorized
  else
    let productIds := data.adjustments.map (fun a => a.productId)
    let products := st.products.filter fun p =>
      productIds.contains p.id && p.storeId == data.storeId
    if products.length ≠ productIds.length then .error .someProductsNotInStore
    else .ok (data.adjustments.foldl (bulkStep products user data.storeId) ([], st))

/-- Body of `debtPaymentSchema` (debt routes). -/
structure PaymentInput where
  amount : Int
  paymentType : PaymentType
  notes : Option String
deriving DecidableEq

/-- POST `/:id/payments` of the debt routes: validate (`amount > 0`), look the
debt up, check store access, reject payments exceeding the remaining amount,
then in one transaction append the payment and recompute
paidAmount/remainingAmount/status. -/
def addPayment (st : ServerState) (user : AuthUser) (debtId : String)
    (data : PaymentInput) : Except ApiError (DebtPayment × Debt × ServerState) :=
  if data.amount ≤ 0 then .error .validation
  else
    match st.debts.find? (fun d => d.id == debtId) with
    | none => .error .debtNotFound
    | some debt =>
      if ¬ storeAccessOk user debt.storeId then .error .unauthorized
      else if debt.remainingAmount < data.amount then .error .paymentExceedsRemaining
      else
        let payment : DebtPayment :=
          { debtId := debtId, amount := data.amount,
            paymentType := data.paymentType, notes := data.notes }
        let newPaidAmount := debt.paidAmount + data.amount
        let newRemainingAmount := debt.amount - newPaidAmount
        let newStatus := if newRemainingAmount = 0 then DebtStatus.PAID else DebtStatus.PARTIAL
        let updatedDebt :=
          { debt with
            paidAmount := newPaidAmount,
            remainingAmount := newRemainingAmount, status := newStatus }
        .ok (payment, updatedDebt,
          { st with
            payments := st.payments ++ [payment],
            debts := st.debts.map fun d => if d.id == debtId then updatedDebt else d })

/-- One server-side mutating request against the stock/sale/debt engine. -/
inductive StoreOp
  | sale (user : AuthUser) (input : SaleInput) (saleId debtId : String)
  | movement (user : AuthUser) (input : MovementInput)
  | bulk (user : AuthUser) (input : BulkInput)
  | payment (user : AuthUser) (debtId : String) (input : PaymentInput)

/-- Apply one request; a rejected request leaves the store untouched
(every error return in the handlers happens before the transaction). -/
def applyOp (st : ServerState) : StoreOp → ServerState
  | .sale user input saleId debtId =>
    match createSale st user input saleId debtId with
    | .ok r => r.2
    | .error _ => st
  | .movement user input =>
    match createStockMovement st user input with
    | .ok r => r.2
    | .error _ => st
  | .bulk user input =>
    match bulkAdjustment st user input with
    | .ok r => r.2
    | .error _ => st
  | .payment user debtId input =>
    match addPayment st user debtId input with
    | .ok r => r.2.2
    | .error _ => st

/-- Run a sequence of requests. -/
def runOps (st : ServerState) (ops : List StoreOp) : ServerState :=
  ops.foldl applyOp st

/-- `action` field of a sync item. -/
inductive SyncAction
  | CREATE
  | UPDATE
  | DELETE
deriving DecidableEq

/-- The string Prisma/JS would interpolate for an action. -/
def actionName : SyncAction → String
  | .CREATE => "CREATE"
  | .UPDATE => "UPDATE"
  | .DELETE => "DELETE"

/-- The dynamic `z.record(z.any())` payload of a sync item, restricted to the
fields the push handlers actually read (`storeId`, `sellerId`, `userId`);
everything else the handlers spread verbatim is kept opaque in `payload`. -/
structure SyncData where
  storeId : Option String
  sellerId : Option String
  userId : Option String
  payload : String
deriving DecidableEq

/-- One element of the `items` array of a push request. -/
structure SyncItem where
  action : SyncAction
  tableName : String
  recordId : String
  data : SyncData
deriving DecidableEq

/-- A row as the sync handlers see it: client-chosen primary key, owning
store, logical-delete flag, owning user where the handler sets one, and the
opaque rest of the payload. -/
structure SyncRecord where
  id : String
  storeId : Option String
  owner : Option String
  isActive : Bool
  data : SyncData
deriving DecidableEq

/-- The four tables the push direction dispatches to. -/
structure SyncTables where
  products : List SyncRecord
  sales : List SyncRecord
  stockMovements : List SyncRecord
  debts : List SyncRecord
deriving DecidableEq

/-- One entry of the push response's `results` array. -/
structure SyncResult where
  recordId : String
  status : String
  error : Option String
deriving DecidableEq

/-- The `{recordId, status: 'success'}` result shape. -/
def syncSuccess (recordId : String) : SyncResult :=
  { recordId := recordId, status := "success", error := none }

/-- The error message a result or thrown exception carries, if any. -/
def resultError : Except String (SyncResult × SyncTables) → Option String
  | .ok r => r.1.error
  | .error msg => some msg

/-- Common shape of every handler branch: run one table operation and wrap
its outcome as a success result over the updated tables, re-throwing its
error. -/
def tableOp (rid : String) (op : Except String (List SyncRecord))
    (mk : List SyncRecord → SyncTables) : Except String (SyncResult × SyncTables) :=
  match op with
  | .error e => .error e
  | .ok t => .ok (syncSuccess rid, mk t)

/-- `prisma.<table>.create` with a client-supplied id: throws on a duplicate
primary key, otherwise appends the row. -/
def createRecord (table : List SyncRecord) (recordId : String)
    (storeId owner : Option String) (d : SyncData) :
    Except String (List SyncRecord) :=
  if table.any (fun r => r.id == recordId) then .error "Unique constraint failed"
  else .ok (table ++ [{ id := recordId, storeId := storeId, owner := owner,
                        isActive := true, data := d }])

/-- `prisma.<table>.update({ where: { id }, data })`: throws when the row is
absent, otherwise overwrites the spread fields. -/
def updateRecord (table : List SyncRecord) (recordId : String) (d : SyncData) :
    Except String (List SyncRecord) :=
  if table.any (fun r => r.id == recordId) then
    .ok (table.map fun r =>
      if r.id == recordId then
        { r with data := d, storeId := jsOrOptString d.storeId r.storeId }
      else r)
  else .error "Record to update not found"

/-- Logical delete: `update({ where: { id }, data: { isActive: false } })`. -/
def deactivateRecord (table : List SyncRecord) (recordId : String) :
    Except String (List SyncRecord) :=
  if table.any (fun r => r.id == recordId) then
    .ok (table.map fun r => if r.id == recordId then { r with isActive := false } else r)
  else .error "Record to update not found"

/-- `handleProductSync`: CREATE (storeId defaulted to the caller's), UPDATE,
and logical DELETE. -/
def handleProductSync (tables : SyncTables) (item : SyncItem) (userId : String)
    (storeId : Option String) : Except String (SyncResult × SyncTables) :=
  match item.action with
  | .CREATE =>
    tableOp item.recordId
      (createRecord tables.products item.recordId
        (jsOrOptString item.data.storeId storeId) none item.data)
      fun t => { tables with products := t }
  | .UPDATE =>
    tableOp item.recordId (updateRecord tables.products item.recordId item.data)
      fun t => { tables with products := t }
  | .DELETE =>
    tableOp item.recordId (deactivateRecord tables.products item.recordId)
      fun t => { tables with products := t }

/-- `handleSaleSync`: CREATE (sellerId defaulted to the caller, storeId to the
caller's store) and UPDATE; anything else throws. -/
def handleSaleSync (tables : SyncTables) (item : SyncItem) (userId : String)
    (storeId : Option String) : Except String (SyncResult × SyncTables) :=
  match item.action with
  | .CREATE =>
    tableOp item.recordId
      (createRecord tables.sales item.recordId
        (jsOrOptString item.data.storeId storeId)
        (jsOrOptString item.data.sellerId (some userId)) item.data)
      fun t => { tables with sales := t }
  | .UPDATE =>
    tableOp item.recordId (updateRecord tables.sales item.recordId item.data)
      fun t => { tables with sales := t }
  | a => .error ("Unsupported action: " ++ actionName a ++ " for sales")

/-- `handleStockMovementSync`: CREATE only; anything else throws. -/
def handleStockMovementSync (tables : SyncTables) (item : SyncItem) (userId : String)
    (storeId : Option String) : Except String (SyncResult × SyncTables) :=
  match item.action with
  | .CREATE =>
    tableOp item.recordId
      (createRecord tables.stockMovements item.recordId
        (jsOrOptString item.data.storeId storeId)
        (jsOrOptString item.data.userId (some userId)) item.data)
      fun t => { tables with stockMovements := t }
  | a => .error ("Unsupported action: " ++ actionName a ++ " for stock movements")

/-- `handleDebtSync`: CREATE and UPDATE; anything else throws. -/
def handleDebtSync (tables : SyncTables) (item : SyncItem) (userId : String)
    (storeId : Option String) : Except String (SyncResult × SyncTables) :=
  match item.action with
  | .CREATE =>
    tableOp item.recordId
      (createRecord tables.debts item.recordId
        (jsOrOptString item.data.storeId storeId) none item.data)
      fun t => { tables with debts := t }
  | .UPDATE =>
    tableOp item.recordId (updateRecord tables.debts item.recordId item.data)
      fun t => { tables with debts := t }
  | a => .error ("Unsupported action: " ++ actionName a ++ " for debts")

/-- The `switch (item.tableName)` of the push loop. -/
def pushDispatch (tables : SyncTables) (user : AuthUser) (item : SyncItem) :
    Except String (SyncResult × SyncTables) :=
  if item.tableName == "products" then handleProductSync tables item user.id user.storeId
  else if item.tableName == "sales" then handleSaleSync tables item user.id user.storeId
  else if item.tableName == "stock_movements" then
    handleStockMovementSync tables item user.id user.storeId
  else if item.tableName == "debts" then handleDebtSync tables item user.id user.storeId
  else .ok ({ recordId := item.recordId, status := "error",
              error := some ("Unsupported table: " ++ item.tableName) }, tables)

/-- One iteration of the push loop: the per-item store-access check, then the
dispatch, with any thrown error caught and turned into an error result for
this item only. -/
def pushOne (tables : SyncTables) (user : AuthUser) (item : SyncItem) :
    SyncResult × SyncTables :=
  if jsTruthyStr item.data.storeId && item.data.storeId != user.storeId &&
      !(user.role == Role.ADMIN) then
    ({ recordId := item.recordId, status := "error",
       error := some "Unauthorized store access" }, tables)
  else
    match pushDispatch tables user item with
    | .ok r => r
    | .error msg =>
      ({ recordId := item.recordId, status := "error", error := some msg }, tables)

/-- POST `/push`: process the items sequentially, collecting one result per
item. -/
def pushBatch (tables : SyncTables) (user : AuthUser) :
    List SyncItem → List SyncResult × SyncTables
  | [] => ([], tables)
  | item :: rest =>
    let r := pushOne tables user item
    let rs := pushBatch r.2 user rest
    (r.1 :: rs.1, rs.2)

/-- All rows of the four sync tables. -/
def allRecords (tables : SyncTables) : List SyncRecord :=
  tables.products ++ tables.sales ++ tables.stockMovements ++ tables.debts

/-- `SyncStatus` enum of the sync queue. -/
inductive SyncStatus
  | PENDING
  | PROCESSING
  | COMPLETED
  | FAILED
deriving DecidableEq

/-- A `SyncQueue` row. -/
structure QueueItem where
  id : String
  userId : String
  status : SyncStatus
  attempts : Int
  maxAttempts : Int
  error : Option String
deriving DecidableEq

/-- One entry of the retry response. -/
structure RetryResult where
  id : String
  status : String
  error : Option String
deriving DecidableEq

/-- The `where` clause of the retry query: the caller's FAILED items with
`attempts < 3` (the literal 3 from the handler, not the row's own
`maxAttempts` column). -/
def retrySelects (userId : String) (it : QueueItem) : Bool :=
  it.userId == userId && it.status == SyncStatus.FAILED && it.attempts < 3

/-- POST `/retry`: read the matching items, then update each one by primary
key to PENDING with `attempts` incremented and `error` cleared, reporting it
as queued. Queue ids are primary keys, so the per-id updates amount to one
map over the queue. -/
def retryFailedItems (queue : List QueueItem) (userId : String) :
    List RetryResult × List QueueItem :=
  let failedItems := queue.filter (retrySelects userId)
  (failedItems.map fun it => { id := it.id, status := "queued", error := none },
   queue.map fun it =>
     if retrySelects userId it then
       { it with status := SyncStatus.PENDING, attempts := it.attempts + 1, error := none }
     else it)

/-! Concrete fixtures: the product and requests of the spec's scenarios. -/

/-- The scenario product: `currentStock=10, unitsPerPackage=5,
unitSalePrice=100, packageSalePrice=450`. -/
def scenarioProduct : Product :=
  { id := "prod-1", category := "drinks", unitsPerPackage := 5, currentStock := 10,
    packagePurchasePrice := 400, unitSalePrice := 100, packageSalePrice := 450,
    minStockAlert := 5, isActive := true, storeId := "store-1" }

/-- A seller confined to the scenario store. -/
def sellerUser : AuthUser :=
  { id := "user-1", role := .SELLER, storeId := some "store-1" }

/-- A store holding just the scenario product. -/
def baseState : ServerState :=
  { products := [scenarioProduct], sales := [], movements := [], debts := [], payments := [] }

/-- Scenario 1 request: `quantity=2, saleType=UNIT`. -/
def saleInputUnit2 : SaleInput :=
  { productId := "prod-1", quantity := 2, saleType := .UNIT, paymentType := .CASH,
    clientName := none, clientPhone := none, notes := none, isDebt := none,
    storeId := "store-1" }

/-- Scenario 2 request: `quantity=1, saleType=PACKAGE`. -/
def saleInputPackage1 : SaleInput :=
  { saleInputUnit2 with quantity := 1, saleType := .PACKAGE }

/-- Scenario 3 request: `quantity=3, saleType=PACKAGE` (requiredStock 15 > 10). -/
def saleInputPackage3 : SaleInput :=
  { saleInputUnit2 with quantity := 3, saleType := .PACKAGE }

/-- A credit variant of the Scenario 1 request (`isDebt`, totalAmount 200). -/
def saleInputDebtUnit2 : SaleInput :=
  { saleInputUnit2 with isDebt := some true }

/-- The OUT audit row a successful Scenario 2 sale appends. -/
def packageSaleMovement : StockMovement :=
  { type := .OUT, quantity := 5, unitPrice := 100, totalValue := 450,
    reason := some "Sale", reference := some "sale-1", productId := "prod-1",
    userId := "user-1", storeId := "store-1" }

/-- An IN movement request of magnitude 4 without an explicit unit price. -/
def inInput4 : MovementInput :=
  { productId := "prod-1", type := .IN, quantity := 4, unitPrice := none,
    reason := none, reference := none, storeId := "store-1" }

/-- The audit row `inInput4` appends (unit price falls back to 100). -/
def inMovement4 : StockMovement :=
  { type := .IN, quantity := 4, unitPrice := 100, totalValue := 400,
    reason := none, reference := none, productId := "prod-1",
    userId := "user-1", storeId := "store-1" }

/-- The store after applying `inInput4` to `baseState`. -/
def inState4 : ServerState :=
  { products := [{ scenarioProduct with currentStock := 14 }], sales := [],
    movements := [inMovement4], debts := [], payments := [] }

/-- An OUT movement request of magnitude 15, exceeding the stock of 10. -/
def outInput15 : MovementInput :=
  { productId := "prod-1", type := .OUT, quantity := 15, unitPrice := none,
    reason := none, reference := none, storeId := "store-1" }

/-- Scenario 4 debt: `amount=200`, nothing paid yet. -/
def debt200 : Debt :=
  { id := "debt-1", amount := 200, paidAmount := 0, remainingAmount := 200,
    status := .PENDING, clientName := "Alice", clientPhone := none, notes := none,
    saleId := "sale-1", storeId := "store-1" }

/-- A store holding just the Scenario 4 debt. -/
def debtState : ServerState :=
  { products := [], sales := [], movements := [], debts := [debt200], payments := [] }

/-- Scenario 4 first payment: `amount=150`. -/
def payment150 : PaymentInput :=
  { amount := 150, paymentType := .CASH, notes := none }

/-- An operation sequence exercising a movement, a credit sale and a payment. -/
def witnessOps : List StoreOp :=
  [.movement sellerUser inInput4,
   .sale sellerUser saleInputDebtUnit2 "sale-1" "debt-1",
   .payment sellerUser "debt-1" payment150]

/-- Empty sync tables. -/
def s6Tables : SyncTables :=
  { products := [], sales := [], stockMovements := [], debts := [] }

/-- Scenario 6 item 1: a CREATE sale naming a foreign store. -/
def s6Item1 : SyncItem :=
  { action := .CREATE, tableName := "sales", recordId := "r1",
    data := { storeId := some "store-2", sellerId := none, userId := none,
              payload := "sale" } }

/-- Scenario 6 item 2: a valid CREATE stock movement for the caller's store. -/
def s6Item2 : SyncItem :=
  { action := .CREATE, tableName := "stock_movements", recordId := "r2",
    data := { storeId := some "store-1", sellerId := none, userId := none,
              payload := "movement" } }

/-- A pushed CREATE whose payload has no `storeId` at all. -/
def missingStoreItem : SyncItem :=
  { action := .CREATE, tableName := "products", recordId := "r9",
    data := { storeId := none, sellerId := none, userId := none,
              payload := "product" } }

/-- A DELETE-sale item: the sales handler supports no DELETE and throws. -/
def s6ItemBad : SyncItem :=
  { action := .DELETE, tableName := "sales", recordId := "r3",
    data := { storeId := none, sellerId := none, userId := none, payload := "x" } }

/-- A FAILED queue row whose own `maxAttempts` (10) still exceeds its
`attempts` (4). -/
def stuckQueueItem : QueueItem :=
  { id := "q1", userId := "user-1", status := .FAILED, attempts := 4,
    maxAttempts := 10, error := some "boom" }

/-! General lemmas about the embedding's building blocks. -/

theorem jsOrOptString_of_falsy {o d : Option String} (h : jsTruthyStr o = false) :
    jsOrOptString o d = d := by
  cases o with
  | none => rfl
  | some s =>
    simp only [jsTruthyStr, ne_eq, decide_not, Bool.not_eq_false', decide_eq_true_eq] at h
    simp [jsOrOptString, h]

theorem find?_id_update (l : List Product) (pid : String) (f : Product → Product)
    (hf : ∀ p, (f p).id = p.id) :
    ((l.map fun p => if p.id == pid then f p else p).find? fun p => p.id == pid)
      = (l.find? fun p => p.id == pid).map fun p => if p.id == pid then f p else p := by
  rw [List.find?_map]
  have hp : ((fun p => p.id == pid) ∘ fun p => if (p.id == pid) = true then f p else p)
      = fun p => p.id == pid := by
    funext p
    by_cases h : p.id = pid
    · simp [Function.comp, h, hf]
    · simp [Function.comp, h]
  rw [hp]

theorem find?_id_unique {l : List Product} {pid : String} {prod : Product}
    (hnd : l.Pairwise fun a b => a.id ≠ b.id)
    (hfind : (l.find? fun p => p.id == pid) = some prod)
    {x : Product} (hx : x ∈ l) (hxid : x.id = pid) : x = prod := by
  induction l with
  | nil => simp at hfind
  | cons a t ih =>
    rw [List.pairwise_cons] at hnd
    by_cases ha : a.id = pid
    · rw [List.find?_cons_of_pos _ (by simp [ha])] at hfind
      cases hx with
      | head => exact Option.some.inj hfind
      | tail _ hxt => exact absurd (hxid.trans ha.symm) (hnd.1 x hxt).symm
    · rw [List.find?_cons_of_neg _ (by simp [ha])] at hfind
      cases hx with
      | head => exact absurd hxid ha
      | tail _ hxt => exact ih hnd.2 hfind hxt

theorem pairwise_ids_map {l : List Product} {g : Product → Product}
    (hg : ∀ p, (g p).id = p.id)
    (h : l.Pairwise fun a b => a.id ≠ b.id) :
    (l.map g).Pairwise fun a b => a.id ≠ b.id := by
  rw [List.pairwise_map]
  exact h.imp fun {a b} hab => by simpa [hg] using hab

/-! Characterization of a successful `createSale`. -/

theorem createSale_ok_elim {st : ServerState} {user : AuthUser} {data : SaleInput}
    {saleId debtId : String} {sale : Sale} {st' : ServerState}
    (h : createSale st user data saleId debtId = .ok (sale, st')) :
    ∃ product,
      findProduct st data.productId = some product ∧
      0 < data.quantity ∧
      storeAccessOk user data.storeId = true ∧
      requiredStockOf data.saleType data.quantity product.unitsPerPackage ≤
        product.currentStock ∧
      sale.totalAmount = salePriceOf data.saleType product * data.quantity ∧
      st'.products = (st.products.map fun p =>
        if p.id == data.productId then
          { p with currentStock := p.currentStock -
              requiredStockOf data.saleType data.quantity product.unitsPerPackage }
        else p) ∧
      st'.movements = st.movements ++
        [{ type := .OUT,
           quantity := requiredStockOf data.saleType data.quantity product.unitsPerPackage,
           unitPrice := product.unitSalePrice, totalValue := sale.totalAmount,
           reason := some "Sale", reference := some saleId,
           productId := data.productId, userId := user.id, storeId := data.storeId }] ∧
      st'.debts = (if data.isDebt.getD false then
        st.debts ++
          [{ id := debtId, amount := sale.totalAmount, paidAmount := 0,
             remainingAmount := sale.totalAmount, status := .PENDING,
             clientName := jsOrString data.clientName "Unknown",
             clientPhone := data.clientPhone, notes := data.notes,
             saleId := saleId, storeId := data.storeId }]
        else st.debts) := by
  unfold createSale at h
  split at h
  · exact absurd h (by simp)
  rename_i hq
  split at h
  · exact absurd h (by simp)
  rename_i hauth
  split at h
  · exact absurd h (by simp)
  rename_i product hfind
  split at h
  · exact absurd h (by simp)
  rename_i hstock
  refine ⟨product, hfind, by omega, not_not.mp hauth, by omega, ?_⟩
  simp only [Except.ok.injEq, Prod.mk.injEq] at h
  obtain ⟨hsale, hst⟩ := h
  subst hst
  refine ⟨by rw [← hsale], rfl, ?_, ?_⟩ <;> rw [← hsale]

/-- C2: a successful `createSale` prices the sale from `salePriceOf`
(PACKAGE → packageSalePrice, UNIT → unitSalePrice, times quantity),
decrements the product's stock by exactly `requiredStockOf`, appends exactly
one OUT stock movement of that quantity with `reference = saleId` and reason
"Sale", and appends one debt with `amount = remainingAmount = totalAmount`,
`paidAmount = 0` and clientName defaulting to "Unknown" precisely when
`isDebt` is set — all in the one transaction that produces the new state.
Scenarios 1 and 2 are the instances `saleInputUnit2` (totalAmount 200,
stock 8) and `saleInputPackage1` (totalAmount 450, stock 5) on `baseState`. -/
theorem createSale_success_spec (st : ServerState) (user : AuthUser) (data : SaleInput)
    (saleId debtId : String) (product : Product)
    (hq : 0 < data.quantity)
    (hauth : storeAccessOk user data.storeId = true)
    (hfind : findProduct st data.productId = some product)
    (hstock : requiredStockOf data.saleType data.quantity product.unitsPerPackage ≤
      product.currentStock) :
    ∃ sale st',
      createSale st user data saleId debtId = .ok (sale, st') ∧
      sale.unitPrice = salePriceOf data.saleType product ∧
      sale.totalAmount = salePriceOf data.saleType product * data.quantity ∧
      findProduct st' data.productId =
        some { product with currentStock := (product.currentStock -
          requiredStockOf data.saleType data.quantity product.unitsPerPackage) } ∧
      st'.sales = st.sales ++ [sale] ∧
      st'.movements = st.movements ++
        [{ type := .OUT,
           quantity := requiredStockOf data.saleType data.quantity product.unitsPerPackage,
           unitPrice := product.unitSalePrice, totalValue := sale.totalAmount,
           reason := some "Sale", reference := some saleId,
           productId := data.productId, userId := user.id, storeId := data.storeId }] ∧
      (data.isDebt.getD false = true → st'.debts = st.debts ++
        [{ id := debtId, amount := sale.totalAmount, paidAmount := 0,
           remainingAmount := sale.totalAmount, status := .PENDING,
           clientName := jsOrString data.clientName "Unknown",
           clientPhone := data.clientPhone, notes := data.notes,
           saleId := saleId, storeId := data.storeId }]) ∧
      (data.isDebt.getD false = false → st'.debts = st.debts) := by
  have hq' : ¬ data.quantity ≤ 0 := by omega
  have hauth' : ¬ ¬ (storeAccessOk user data.storeId = true) := not_not_intro hauth
  have hstock' : ¬ product.currentStock <
      requiredStockOf data.saleType data.quantity product.unitsPerPackage := by omega
  have hfind' : (st.products.find? fun p => p.id == data.productId) = some product := hfind
  have hpred := List.find?_some hfind'
  simp only [createSale, hfind, if_neg hq', if_neg hauth', if_neg hstock']
  refine ⟨_, _, rfl, rfl, rfl, ?_, rfl, rfl, ?_, ?_⟩
  · simp only [findProduct]
    rw [find?_id_update st.products data.productId
        (fun p => { p with currentStock := (p.currentStock -
          requiredStockOf data.saleType data.quantity product.unitsPerPackage) })
        (fun p => rfl), hfind']
    have hpred' : (product.id == data.productId) = true := hpred
    simp only [Option.map_some']
    rw [if_pos hpred']
  · intro hd
    simp [hd]
  · intro hd
    simp [hd]

/-- Witness for `createSale_success_spec`: Scenario 1 (`quantity=2`, UNIT on
the scenario product) satisfies every hypothesis and the conclusion. -/
theorem createSale_success_spec_witness :
    (0 < saleInputUnit2.quantity ∧
      storeAccessOk sellerUser saleInputUnit2.storeId = true ∧
      findProduct baseState saleInputUnit2.productId = some scenarioProduct ∧
      requiredStockOf saleInputUnit2.saleType saleInputUnit2.quantity
        scenarioProduct.unitsPerPackage ≤ scenarioProduct.currentStock) ∧
    (∃ sale st',
      createSale baseState sellerUser saleInputUnit2 "sale-1" "debt-1" = .ok (sale, st') ∧
      sale.unitPrice = salePriceOf saleInputUnit2.saleType scenarioProduct ∧
      sale.totalAmount = salePriceOf saleInputUnit2.saleType scenarioProduct *
        saleInputUnit2.quantity ∧
      findProduct st' saleInputUnit2.productId =
        some { scenarioProduct with currentStock := (scenarioProduct.currentStock -
          requiredStockOf saleInputUnit2.saleType saleInputUnit2.quantity
            scenarioProduct.unitsPerPackage) } ∧
      st'.sales = baseState.sales ++ [sale] ∧
      st'.movements = baseState.movements ++
        [{ type := .OUT,
           quantity := requiredStockOf saleInputUnit2.saleType saleInputUnit2.quantity
             scenarioProduct.unitsPerPackage,
           unitPrice := scenarioProduct.unitSalePrice, totalValue := sale.totalAmount,
           reason := some "Sale", reference := some "sale-1",
           productId := saleInputUnit2.productId, userId := sellerUser.id,
           storeId := saleInputUnit2.storeId }] ∧
      (saleInputUnit2.isDebt.getD false = true → st'.debts = baseState.debts ++
        [{ id := "debt-1", amount := sale.totalAmount, paidAmount := 0,
           remainingAmount := sale.totalAmount, status := .PENDING,
           clientName := jsOrString saleInputUnit2.clientName "Unknown",
           clientPhone := saleInputUnit2.clientPhone, notes := saleInputUnit2.notes,
           saleId := "sale-1", storeId := saleInputUnit2.storeId }]) ∧
      (saleInputUnit2.isDebt.getD false = false → st'.debts = baseState.debts)) :=
  ⟨⟨by decide, by decide, by decide, by decide⟩,
    createSale_success_spec baseState sellerUser saleInputUnit2 "sale-1" "debt-1"
      scenarioProduct (by decide) (by decide) (by decide) (by decide)⟩

/-- C4: with the product found, a positive quantity and store access granted,
`createSale` fails with `insufficientStock` exactly when
`currentStock < requiredStock`, and on that failure the store state is
untouched (the rejection happens before the transaction). Scenario 3 is the
instance `saleInputPackage3` on `baseState`. -/
theorem createSale_insufficientStock_iff (st : ServerState) (user : AuthUser)
    (data : SaleInput) (saleId debtId : String) (product : Product)
    (hq : 0 < data.quantity)
    (hauth : storeAccessOk user data.storeId = true)
    (hfind : findProduct st data.productId = some product) :
    (createSale st user data saleId debtId = .error .insufficientStock ↔
      product.currentStock <
        requiredStockOf data.saleType data.quantity product.unitsPerPackage) ∧
    (product.currentStock <
        requiredStockOf data.saleType data.quantity product.unitsPerPackage →
      applyOp st (.sale user data saleId debtId) = st) := by
  have hq' : ¬ data.quantity ≤ 0 := by omega
  have hauth' : ¬ ¬ (storeAccessOk user data.storeId = true) := not_not_intro hauth
  constructor
  · constructor
    · intro h
      by_contra hc
      simp only [createSale, hfind, if_neg hq', if_neg hauth', if_neg hc] at h
      exact absurd h (by simp)
    · intro hc
      simp only [createSale, hfind, if_neg hq', if_neg hauth', if_pos hc]
  · intro hc
    simp only [applyOp, createSale, hfind, if_neg hq', if_neg hauth', if_pos hc]

/-- Witness for `createSale_insufficientStock_iff`: Scenario 3
(`quantity=3`, PACKAGE, requiredStock 15 against stock 10) is rejected and
leaves the store unchanged. -/
theorem createSale_insufficientStock_iff_witness :
    (0 < saleInputPackage3.quantity ∧
      storeAccessOk sellerUser saleInputPackage3.storeId = true ∧
      findProduct baseState saleInputPackage3.productId = some scenarioProduct) ∧
    ((createSale baseState sellerUser saleInputPackage3 "sale-1" "debt-1" =
        .error .insufficientStock ↔
      scenarioProduct.currentStock <
        requiredStockOf saleInputPackage3.saleType saleInputPackage3.quantity
          scenarioProduct.unitsPerPackage) ∧
    (scenarioProduct.currentStock <
        requiredStockOf saleInputPackage3.saleType saleInputPackage3.quantity
          scenarioProduct.unitsPerPackage →
      applyOp baseState (.sale sellerUser saleInputPackage3 "sale-1" "debt-1") =
        baseState)) :=
  ⟨⟨by decide, by decide, by decide⟩,
    createSale_insufficientStock_iff baseState sellerUser saleInputPackage3
      "sale-1" "debt-1" scenarioProduct (by decide) (by decide) (by decide)⟩

/-! Characterizations of the other mutating operations. -/

theorem createStockMovement_ok_elim {st : ServerState} {user : AuthUser}
    {data : MovementInput} {m : StockMovement} {st' : ServerState}
    (h : createStockMovement st user data = .ok (m, st')) :
    ∃ product,
      findProduct st data.productId = some product ∧
      ¬ (data.type = .OUT ∧ product.currentStock < |data.quantity|) ∧
      m = { type := data.type, quantity := |data.quantity|,
            unitPrice := data.unitPrice.getD product.unitSalePrice,
            totalValue := data.unitPrice.getD product.unitSalePrice * |data.quantity|,
            reason := data.reason, reference := data.reference,
            productId := data.productId, userId := user.id, storeId := data.storeId } ∧
      st'.products = (st.products.map fun p =>
        if p.id == data.productId then
          { p with currentStock := (max 0
              (product.currentStock + stockChangeOf data.type data.quantity)) }
        else p) ∧
      st'.movements = st.movements ++ [m] ∧
      st'.debts = st.debts := by
  unfold createStockMovement at h
  split at h
  · exact absurd h (by simp)
  split at h
  · exact absurd h (by simp)
  split at h
  · exact absurd h (by simp)
  rename_i product hfind
  split at h
  · exact absurd h (by simp)
  rename_i hout
  simp only [Except.ok.injEq, Prod.mk.injEq] at h
  obtain ⟨hm, hst⟩ := h
  subst hst
  subst hm
  exact ⟨product, hfind, hout, rfl, rfl, rfl, rfl⟩

theorem bulkAdjustment_ok_elim {st : ServerState} {user : AuthUser} {data : BulkInput}
    {ms : List StockMovement} {st' : ServerState}
    (h : bulkAdjustment st user data = .ok (ms, st')) :
    (∀ a ∈ data.adjustments, 0 ≤ a.newStock) ∧
    (ms, st') = data.adjustments.foldl
      (bulkStep (st.products.filter fun p =>
        (data.adjustments.map fun a => a.productId).contains p.id &&
          p.storeId == data.storeId) user data.storeId) ([], st) := by
  simp only [bulkAdjustment] at h
  split at h
  · exact absurd h (by simp)
  rename_i hval
  split at h
  · exact absurd h (by simp)
  split at h
  · exact absurd h (by simp)
  simp only [Except.ok.injEq] at h
  constructor
  · intro a ha
    have hval' : data.adjustments.any (fun a => decide (a.newStock < 0)) = false := by
      revert hval
      cases data.adjustments.any fun a => decide (a.newStock < 0) <;> simp
    have h2 := List.any_eq_false.mp hval' a ha
    simp at h2
    omega
  · exact h.symm

theorem addPayment_ok_elim {st : ServerState} {user : AuthUser} {debtId : String}
    {data : PaymentInput} {payment : DebtPayment} {debt' : Debt} {st' : ServerState}
    (h : addPayment st user debtId data = .ok (payment, debt', st')) :
    ∃ debt,
      (st.debts.find? fun d => d.id == debtId) = some debt ∧
      0 < data.amount ∧
      storeAccessOk user debt.storeId = true ∧
      data.amount ≤ debt.remainingAmount ∧
      payment = { debtId := debtId, amount := data.amount,
                  paymentType := data.paymentType, notes := data.notes } ∧
      debt' = { debt with
                paidAmount := debt.paidAmount + data.amount,
                remainingAmount := debt.amount - (debt.paidAmount + data.amount),
                status := if debt.amount - (debt.paidAmount + data.amount) = 0 then
                    DebtStatus.PAID
                  else DebtStatus.PARTIAL } ∧
      st' = { st with
              payments := st.payments ++ [payment],
              debts := st.debts.map fun d => if d.id == debtId then debt' else d } := by
  unfold addPayment at h
  split at h
  · exact absurd h (by simp)
  rename_i hpos
  split at h
  · exact absurd h (by simp)
  rename_i debt hfind
  split at h
  · exact absurd h (by simp)
  rename_i hauth
  split at h
  · exact absurd h (by simp)
  rename_i hexceed
  simp only [Except.ok.injEq, Prod.mk.injEq] at h
  obtain ⟨hpay, hdebt, hst⟩ := h
  subst hst
  subst hdebt
  subst hpay
  exact ⟨debt, hfind, by omega, not_not.mp hauth, by omega, rfl, rfl, rfl⟩

/-! The bulk-adjustment loop's effect on the store. -/

theorem foldl_bulkStep_debts (products : List Product) (user : AuthUser) (sid : String) :
    ∀ (adjs : List AdjustmentInput) (acc : List StockMovement × ServerState),
      (adjs.foldl (bulkStep products user sid) acc).2.debts = acc.2.debts := by
  intro adjs
  induction adjs with
  | nil => intro acc; rfl
  | cons a t ih =>
    intro acc
    rw [List.foldl_cons, ih]
    unfold bulkStep
    split
    · rfl
    split
    · rfl
    rfl

theorem foldl_bulkStep_products_good (products : List Product) (user : AuthUser)
    (sid : String) :
    ∀ (adjs : List AdjustmentInput) (acc : List StockMovement × ServerState),
      (∀ a ∈ adjs, 0 ≤ a.newStock) →
      (acc.2.products.Pairwise fun x y => x.id ≠ y.id) →
      (∀ p ∈ acc.2.products, 0 ≤ p.currentStock) →
      ((adjs.foldl (bulkStep products user sid) acc).2.products.Pairwise
        fun x y => x.id ≠ y.id) ∧
      ∀ p ∈ (adjs.foldl (bulkStep products user sid) acc).2.products, 0 ≤ p.currentStock := by
  intro adjs
  induction adjs with
  | nil => exact fun acc _ h1 h2 => ⟨h1, h2⟩
  | cons a t ih =>
    intro acc hadj h1 h2
    rw [List.foldl_cons]
    apply ih
    · exact fun b hb => hadj b (List.mem_cons_of_mem _ hb)
    · unfold bulkStep
      split
      · exact h1
      split
      · exact h1
      exact pairwise_ids_map
        (fun p => by by_cases hc : (p.id == a.productId) = true <;> simp [hc]) h1
    · unfold bulkStep
      split
      · exact h2
      split
      · exact h2
      intro q hq
      obtain ⟨p, hp, rfl⟩ := List.mem_map.mp hq
      by_cases hc : (p.id == a.productId) = true
      · rw [if_pos hc]
        exact hadj a (List.mem_cons_self _ _)
      · rw [if_neg hc]
        exact h2 p hp

/-! Each request preserves well-formedness of the product table. -/

theorem applyOp_products_good (st : ServerState) (op : StoreOp)
    (hnd : st.products.Pairwise fun x y => x.id ≠ y.id)
    (h0 : ∀ p ∈ st.products, 0 ≤ p.currentStock) :
    ((applyOp st op).products.Pairwise fun x y => x.id ≠ y.id) ∧
    ∀ p ∈ (applyOp st op).products, 0 ≤ p.currentStock := by
  cases op with
  | sale user input saleId debtId =>
    cases h : createSale st user input saleId debtId with
    | error e =>
      have happ : applyOp st (.sale user input saleId debtId) = st := by
        simp [applyOp, h]
      rw [happ]
      exact ⟨hnd, h0⟩
    | ok r =>
      have happ : applyOp st (.sale user input saleId debtId) = r.2 := by
        simp [applyOp, h]
      rw [happ]
      have h' : createSale st user input saleId debtId = .ok (r.1, r.2) := h
      obtain ⟨product, hfind, hq, hauth, hstock, htot, hprod, hmov, hdebts⟩ :=
        createSale_ok_elim h'
      rw [hprod]
      have hfind' : (st.products.find? fun p => p.id == input.productId) = some product :=
        hfind
      constructor
      · exact pairwise_ids_map
          (fun p => by by_cases hc : (p.id == input.productId) = true <;> simp [hc]) hnd
      · intro q hq'
        obtain ⟨p, hp, rfl⟩ := List.mem_map.mp hq'
        by_cases hc : (p.id == input.productId) = true
        · rw [if_pos hc]
          have hpeq : p = product := find?_id_unique hnd hfind' hp (by simpa using hc)
          subst hpeq
          show 0 ≤ p.currentStock -
            requiredStockOf input.saleType input.quantity p.unitsPerPackage
          omega
        · rw [if_neg hc]
          exact h0 p hp
  | movement user input =>
    cases h : createStockMovement st user input with
    | error e =>
      have happ : applyOp st (.movement user input) = st := by simp [applyOp, h]
      rw [happ]
      exact ⟨hnd, h0⟩
    | ok r =>
      have happ : applyOp st (.movement user input) = r.2 := by simp [applyOp, h]
      rw [happ]
      have h' : createStockMovement st user input = .ok (r.1, r.2) := h
      obtain ⟨product, hfind, hout, hm, hprod, hmov, hdebts⟩ :=
        createStockMovement_ok_elim h'
      rw [hprod]
      constructor
      · exact pairwise_ids_map
          (fun p => by by_cases hc : (p.id == input.productId) = true <;> simp [hc]) hnd
      · intro q hq'
        obtain ⟨p, hp, rfl⟩ := List.mem_map.mp hq'
        by_cases hc : (p.id == input.productId) = true
        · rw [if_pos hc]
          exact le_max_left 0 _
        · rw [if_neg hc]
          exact h0 p hp
  | bulk user input =>
    cases h : bulkAdjustment st user input with
    | error e =>
      have happ : applyOp st (.bulk user input) = st := by simp [applyOp, h]
      rw [happ]
      exact ⟨hnd, h0⟩
    | ok r =>
      have happ : applyOp st (.bulk user input) = r.2 := by simp [applyOp, h]
      rw [happ]
      have h' : bulkAdjustment st user input = .ok (r.1, r.2) := h
      obtain ⟨hadj, hfold⟩ := bulkAdjustment_ok_elim h'
      have hr2 : r.2 = (input.adjustments.foldl
          (bulkStep (st.products.filter fun p =>
            (input.adjustments.map fun a => a.productId).contains p.id &&
              p.storeId == input.storeId) user input.storeId) ([], st)).2 := by
        rw [← hfold]
      rw [hr2]
      exact foldl_bulkStep_products_good _ user input.storeId input.adjustments
        ([], st) hadj hnd h0
  | payment user debtId input =>
    cases h : addPayment st user debtId input with
    | error e =>
      have happ : applyOp st (.payment user debtId input) = st := by simp [applyOp, h]
      rw [happ]
      exact ⟨hnd, h0⟩
    | ok r =>
      have happ : applyOp st (.payment user debtId input) = r.2.2 := by simp [applyOp, h]
      rw [happ]
      have h' : addPayment st user debtId input = .ok (r.1, r.2.1, r.2.2) := h
      obtain ⟨debt, hfind, hpos, hauth, hle, hpay, hdebt, hst⟩ := addPayment_ok_elim h'
      rw [hst]
      exact ⟨hnd, h0⟩

/-- C1: starting from a well-formed product table (distinct ids, no negative
stock), any sequence of sale creations, stock-movement applications, bulk
adjustments and debt payments leaves every product with
`currentStock >= 0`: `createSale` rejects insufficient stock before writing,
`createStockMovement` writes `max 0 (currentStock + delta)`, and
`bulkAdjustment` only accepts target stocks `>= 0`. -/
theorem currentStock_nonneg_invariant (st : ServerState) (ops : List StoreOp)
    (hnd : st.products.Pairwise fun x y => x.id ≠ y.id)
    (h0 : ∀ p ∈ st.products, 0 ≤ p.currentStock) :
    ∀ p ∈ (runOps st ops).products, 0 ≤ p.currentStock := by
  suffices h : ((runOps st ops).products.Pairwise fun x y => x.id ≠ y.id) ∧
      ∀ p ∈ (runOps st ops).products, 0 ≤ p.currentStock from h.2
  unfold runOps
  induction ops generalizing st with
  | nil => exact ⟨hnd, h0⟩
  | cons op t ih =>
    rw [List.foldl_cons]
    exact ih _ (applyOp_products_good st op hnd h0).1 (applyOp_products_good st op hnd h0).2

/-- Witness for `currentStock_nonneg_invariant`: the scenario store satisfies
both hypotheses and keeps nonnegative stock through a movement, a credit sale
and a payment. -/
theorem currentStock_nonneg_invariant_witness :
    ((baseState.products.Pairwise fun x y => x.id ≠ y.id) ∧
      ∀ p ∈ baseState.products, 0 ≤ p.currentStock) ∧
    ∀ p ∈ (runOps baseState witnessOps).products, 0 ≤ p.currentStock :=
  ⟨⟨by decide, by decide⟩,
    currentStock_nonneg_invariant baseState witnessOps (by decide) (by decide)⟩

/-! Each request preserves the debt balance equation. -/

theorem applyOp_debts_good (st : ServerState) (op : StoreOp)
    (h0 : ∀ d ∈ st.debts, d.remainingAmount = d.amount - d.paidAmount) :
    ∀ d ∈ (applyOp st op).debts, d.remainingAmount = d.amount - d.paidAmount := by
  cases op with
  | sale user input saleId debtId =>
    cases h : createSale st user input saleId debtId with
    | error e =>
      have happ : applyOp st (.sale user input saleId debtId) = st := by
        simp [applyOp, h]
      rw [happ]
      exact h0
    | ok r =>
      have happ : applyOp st (.sale user input saleId debtId) = r.2 := by
        simp [applyOp, h]
      rw [happ]
      have h' : createSale st user input saleId debtId = .ok (r.1, r.2) := h
      obtain ⟨product, hfind, hq, hauth, hstock, htot, hprod, hmov, hdebts⟩ :=
        createSale_ok_elim h'
      rw [hdebts]
      split
      · intro d hd
        rcases List.mem_append.mp hd with hold | hnew
        · exact h0 d hold
        · have hd' : d = { id := debtId, amount := r.1.totalAmount, paidAmount := 0,
                           remainingAmount := r.1.totalAmount, status := .PENDING,
                           clientName := jsOrString input.clientName "Unknown",
                           clientPhone := input.clientPhone, notes := input.notes,
                           saleId := saleId, storeId := input.storeId } := by
            simpa using hnew
          subst hd'
          show r.1.totalAmount = r.1.totalAmount - 0
          omega
      · exact h0
  | movement user input =>
    cases h : createStockMovement st user input with
    | error e =>
      have happ : applyOp st (.movement user input) = st := by simp [applyOp, h]
      rw [happ]
      exact h0
    | ok r =>
      have happ : applyOp st (.movement user input) = r.2 := by simp [applyOp, h]
      rw [happ]
      have h' : createStockMovement st user input = .ok (r.1, r.2) := h
      obtain ⟨product, hfind, hout, hm, hprod, hmov, hdebts⟩ :=
        createStockMovement_ok_elim h'
      rw [hdebts]
      exact h0
  | bulk user input =>
    cases h : bulkAdjustment st user input with
    | error e =>
      have happ : applyOp st (.bulk user input) = st := by simp [applyOp, h]
      rw [happ]
      exact h0
    | ok r =>
      have happ : applyOp st (.bulk user input) = r.2 := by simp [applyOp, h]
      rw [happ]
      have h' : bulkAdjustment st user input = .ok (r.1, r.2) := h
      obtain ⟨hadj, hfold⟩ := bulkAdjustment_ok_elim h'
      have hr2 : r.2 = (input.adjustments.foldl
          (bulkStep (st.products.filter fun p =>
            (input.adjustments.map fun a => a.productId).contains p.id &&
              p.storeId == input.storeId) user input.storeId) ([], st)).2 := by
        rw [← hfold]
      rw [hr2, foldl_bulkStep_debts]
      exact h0
  | payment user debtId input =>
    cases h : addPayment st user debtId input with
    | error e =>
      have happ : applyOp st (.payment user debtId input) = st := by simp [applyOp, h]
      rw [happ]
      exact h0
    | ok r =>
      have happ : applyOp st (.payment user debtId input) = r.2.2 := by simp [applyOp, h]
      rw [happ]
      have h' : addPayment st user debtId input = .ok (r.1, r.2.1, r.2.2) := h
      obtain ⟨debt, hfind, hpos, hauth, hle, hpay, hdebt, hst⟩ := addPayment_ok_elim h'
      rw [hst]
      intro d hd
      obtain ⟨d0, hd0, rfl⟩ := List.mem_map.mp hd
      by_cases hc : (d0.id == debtId) = true
      · rw [if_pos hc, hdebt]
      · rw [if_neg hc]
        exact h0 d0 hd0

/-- C3: every debt in the store satisfies
`remainingAmount = amount - paidAmount`, and this is preserved by every
operation that writes a debt: `createSale` creates debts with
`amount = remainingAmount = totalAmount` and `paidAmount = 0`, and
`addPayment` recomputes `paidAmount` and `remainingAmount` together. -/
theorem debt_remaining_invariant (st : ServerState) (ops : List StoreOp)
    (h0 : ∀ d ∈ st.debts, d.remainingAmount = d.amount - d.paidAmount) :
    ∀ d ∈ (runOps st ops).debts, d.remainingAmount = d.amount - d.paidAmount := by
  unfold runOps
  induction ops generalizing st with
  | nil => exact h0
  | cons op t ih =>
    rw [List.foldl_cons]
    exact ih _ (applyOp_debts_good st op h0)

/-- Witness for `debt_remaining_invariant`: the scenario store (no debts yet)
keeps the balance equation through a credit sale followed by a payment. -/
theorem debt_remaining_invariant_witness :
    (∀ d ∈ baseState.debts, d.remainingAmount = d.amount - d.paidAmount) ∧
    ∀ d ∈ (runOps baseState witnessOps).debts,
      d.remainingAmount = d.amount - d.paidAmount :=
  ⟨by decide, debt_remaining_invariant baseState witnessOps (by decide)⟩

/-- C5: for an existing, accessible debt and a positive amount, `addPayment`
fails with `paymentExceedsRemaining` exactly when the amount exceeds
`remainingAmount` (leaving the store untouched); otherwise it appends one
payment row, adds the amount to `paidAmount`, sets
`remainingAmount = amount - newPaidAmount`, and sets the status to PAID when
the new remainder is 0 and PARTIAL otherwise. Scenario 4 follows by applying
this at 150 then 50 then any positive amount on a 200 debt. -/
theorem addPayment_spec (st : ServerState) (user : AuthUser) (debtId : String)
    (data : PaymentInput) (debt : Debt)
    (hfind : (st.debts.find? fun d => d.id == debtId) = some debt)
    (hpos : 0 < data.amount)
    (hauth : storeAccessOk user debt.storeId = true) :
    (addPayment st user debtId data = .error .paymentExceedsRemaining ↔
      debt.remainingAmount < data.amount) ∧
    (debt.remainingAmount < data.amount →
      applyOp st (.payment user debtId data) = st) ∧
    (data.amount ≤ debt.remainingAmount →
      ∃ payment debt' st',
        addPayment st user debtId data = .ok (payment, debt', st') ∧
        payment = { debtId := debtId, amount := data.amount,
                    paymentType := data.paymentType, notes := data.notes } ∧
        debt'.paidAmount = debt.paidAmount + data.amount ∧
        debt'.remainingAmount = debt.amount - (debt.paidAmount + data.amount) ∧
        debt'.amount = debt.amount ∧
        debt'.status = (if debt.amount - (debt.paidAmount + data.amount) = 0 then
            DebtStatus.PAID
          else DebtStatus.PARTIAL) ∧
        st'.payments = st.payments ++ [payment] ∧
        st'.debts = (st.debts.map fun d => if d.id == debtId then debt' else d)) := by
  have hpos' : ¬ data.amount ≤ 0 := by omega
  have hauth' : ¬ ¬ (storeAccessOk user debt.storeId = true) := not_not_intro hauth
  refine ⟨⟨?_, ?_⟩, ?_, ?_⟩
  · intro h
    by_contra hc
    simp only [addPayment, hfind, if_neg hpos', if_neg hauth', if_neg hc] at h
    exact absurd h (by simp)
  · intro hc
    simp only [addPayment, hfind, if_neg hpos', if_neg hauth', if_pos hc]
  · intro hc
    simp only [applyOp, addPayment, hfind, if_neg hpos', if_neg hauth', if_pos hc]
  · intro hle
    have hc : ¬ debt.remainingAmount < data.amount := by omega
    simp only [addPayment, hfind, if_neg hpos', if_neg hauth', if_neg hc]
    exact ⟨_, _, _, rfl, rfl, rfl, rfl, rfl, rfl, rfl, rfl⟩

/-- Witness for `addPayment_spec`: the first Scenario 4 payment (150 on a
fresh 200 debt) satisfies the hypotheses, is not rejected, and yields
`paidAmount=150`, `remainingAmount=50`, status PARTIAL. -/
theorem addPayment_spec_witness :
    ((debtState.debts.find? fun d => d.id == "debt-1") = some debt200 ∧
      0 < payment150.amount ∧
      storeAccessOk sellerUser debt200.storeId = true) ∧
    ((addPayment debtState sellerUser "debt-1" payment150 =
        .error .paymentExceedsRemaining ↔
      debt200.remainingAmount < payment150.amount) ∧
    (debt200.remainingAmount < payment150.amount →
      applyOp debtState (.payment sellerUser "debt-1" payment150) = debtState) ∧
    (payment150.amount ≤ debt200.remainingAmount →
      ∃ payment debt' st',
        addPayment debtState sellerUser "debt-1" payment150 = .ok (payment, debt', st') ∧
        payment = { debtId := "debt-1", amount := payment150.amount,
                    paymentType := payment150.paymentType, notes := payment150.notes } ∧
        debt'.paidAmount = debt200.paidAmount + payment150.amount ∧
        debt'.remainingAmount = debt200.amount -
          (debt200.paidAmount + payment150.amount) ∧
        debt'.amount = debt200.amount ∧
        debt'.status = (if debt200.amount - (debt200.paidAmount + payment150.amount) = 0
          then DebtStatus.PAID
          else DebtStatus.PARTIAL) ∧
        st'.payments = debtState.payments ++ [payment] ∧
        st'.debts = (debtState.debts.map fun d =>
          if d.id == "debt-1" then debt' else d))) :=
  ⟨⟨by decide, by decide, by decide⟩,
    addPayment_spec debtState sellerUser "debt-1" payment150 debt200
      (by decide) (by decide) (by decide)⟩

/-- C9 (amended): in the generic stock-movement path the signed delta is
IN → +|q|, OUT → −|q|, TRANSFER → −|q|, ADJUSTMENT → the signed q; the stored
row keeps the magnitude `|q|`; a successful application sets the stock to
`max 0 (currentStock + delta)`; but an OUT movement exceeding the current
stock is rejected with `insufficientStock` before anything is written —
silent clamping to zero can only arise from TRANSFER or a negative
ADJUSTMENT. -/
theorem stockMovement_spec (st : ServerState) (user : AuthUser) (data : MovementInput)
    (product : Product)
    (hvalid : movementInputValid data = true)
    (hauth : storeAccessOk user data.storeId = true)
    (hfind : findProduct st data.productId = some product) :
    (∀ q : Int, stockChangeOf .IN q = |q| ∧ stockChangeOf .OUT q = -|q| ∧
      stockChangeOf .TRANSFER q = -|q| ∧ stockChangeOf .ADJUSTMENT q = q) ∧
    (data.type = .OUT → product.currentStock < |data.quantity| →
      createStockMovement st user data = .error .insufficientStock ∧
      applyOp st (.movement user data) = st) ∧
    (¬ (data.type = .OUT ∧ product.currentStock < |data.quantity|) →
      ∃ m st',
        createStockMovement st user data = .ok (m, st') ∧
        m.quantity = |data.quantity| ∧
        m.unitPrice = data.unitPrice.getD product.unitSalePrice ∧
        findProduct st' data.productId = some { product with currentStock := (max 0
          (product.currentStock + stockChangeOf data.type data.quantity)) } ∧
        st'.movements = st.movements ++ [m]) := by
  have hvalid' : ¬ ¬ (movementInputValid data = true) := not_not_intro hvalid
  have hauth' : ¬ ¬ (storeAccessOk user data.storeId = true) := not_not_intro hauth
  have hfind' : (st.products.find? fun p => p.id == data.productId) = some product :=
    hfind
  have hpred := List.find?_some hfind'
  have hpred' : (product.id == data.productId) = true := hpred
  refine ⟨fun q => ⟨rfl, rfl, rfl, rfl⟩, ?_, ?_⟩
  · intro hty hlt
    constructor
    · simp only [createStockMovement, hfind, if_neg hvalid', if_neg hauth',
        if_pos (⟨hty, hlt⟩ : _ ∧ _)]
    · simp only [applyOp, createStockMovement, hfind, if_neg hvalid', if_neg hauth',
        if_pos (⟨hty, hlt⟩ : _ ∧ _)]
  · intro hnot
    simp only [createStockMovement, hfind, if_neg hvalid', if_neg hauth', if_neg hnot]
    refine ⟨_, _, rfl, rfl, rfl, ?_, rfl⟩
    simp only [findProduct]
    rw [find?_id_update st.products data.productId
        (fun p => { p with currentStock := (max 0
          (product.currentStock + stockChangeOf data.type data.quantity)) })
        (fun p => rfl), hfind']
    simp only [Option.map_some']
    rw [if_pos hpred']

/-- Witness for `stockMovement_spec`: an IN movement of 4 units on the
scenario product is accepted, stores magnitude 4 with the fallback unit
price, and raises the stock to `max 0 (10 + 4) = 14`. -/
theorem stockMovement_spec_witness :
    (movementInputValid inInput4 = true ∧
      storeAccessOk sellerUser inInput4.storeId = true ∧
      findProduct baseState inInput4.productId = some scenarioProduct ∧
      ¬ (inInput4.type = .OUT ∧ scenarioProduct.currentStock < |inInput4.quantity|)) ∧
    (∃ m st',
      createStockMovement baseState sellerUser inInput4 = .ok (m, st') ∧
      m.quantity = |inInput4.quantity| ∧
      m.unitPrice = inInput4.unitPrice.getD scenarioProduct.unitSalePrice ∧
      findProduct st' inInput4.productId = some { scenarioProduct with
        currentStock := (max 0
          (scenarioProduct.currentStock + stockChangeOf inInput4.type inInput4.quantity)) } ∧
      st'.movements = baseState.movements ++ [m]) :=
  ⟨⟨by decide, by decide, by decide, by decide⟩,
    (stockMovement_spec baseState sellerUser inInput4 scenarioProduct
      (by decide) (by decide) (by decide)).2.2 (by decide)⟩

/-- Counterexample for C9 as stated: an OUT movement of 15 against a stock of
10 is rejected by the generic path with `insufficientStock` and leaves the
store unchanged, instead of silently clamping the stock to
`max(0, 10 - 15) = 0`. -/
theorem stockMovement_out_rejects_cex :
    createStockMovement baseState sellerUser outInput15 = .error .insufficientStock ∧
    applyOp baseState (.movement sellerUser outInput15) = baseState := by
  constructor
  · rfl
  · rfl

/-! The bulk-adjustment loop only emits movements pricing magnitude times
unit sale price. -/

theorem foldl_bulkStep_movements_good (products : List Product) (user : AuthUser)
    (sid : String) :
    ∀ (adjs : List AdjustmentInput) (acc : List StockMovement × ServerState),
      (∀ m ∈ acc.1, m.totalValue = m.quantity * m.unitPrice) →
      ∀ m ∈ (adjs.foldl (bulkStep products user sid) acc).1,
        m.totalValue = m.quantity * m.unitPrice := by
  intro adjs
  induction adjs with
  | nil => exact fun acc h => h
  | cons a t ih =>
    intro acc hacc
    rw [List.foldl_cons]
    apply ih
    unfold bulkStep
    split
    · exact hacc
    split
    · exact hacc
    rename_i product hfp hne
    intro m hm
    rcases List.mem_append.mp hm with hold | hnew
    · exact hacc m hold
    · have hm' : m = bulkMovementOf user sid product a := by simpa using hnew
      subst hm'
      rfl

/-- C7 (amended): `totalValue = unitPrice * |quantity|` (with the
`unitSalePrice` fallback) holds for every movement written by the generic
stock-movement path and by bulk adjustment; the OUT movement written by
`createSale` instead records `unitPrice = product.unitSalePrice` but
`totalValue = sale.totalAmount = salePriceOf saleType product * quantity`, so
the equation holds for UNIT sales but not in general for PACKAGE sales. -/
theorem movement_totalValue_spec :
    (∀ (st : ServerState) (user : AuthUser) (data : MovementInput) (m : StockMovement)
        (st' : ServerState),
      createStockMovement st user data = .ok (m, st') →
      m.totalValue = m.unitPrice * m.quantity ∧
      ∀ product, findProduct st data.productId = some product →
        m.unitPrice = data.unitPrice.getD product.unitSalePrice) ∧
    (∀ (st : ServerState) (user : AuthUser) (data : BulkInput)
        (ms : List StockMovement) (st' : ServerState),
      bulkAdjustment st user data = .ok (ms, st') →
      ∀ m ∈ ms, m.totalValue = m.quantity * m.unitPrice) ∧
    (∀ (st : ServerState) (user : AuthUser) (data : SaleInput) (saleId debtId : String)
        (product : Product) (sale : Sale) (st' : ServerState),
      findProduct st data.productId = some product →
      createSale st user data saleId debtId = .ok (sale, st') →
      ∃ m, st'.movements = st.movements ++ [m] ∧
        m.quantity = requiredStockOf data.saleType data.quantity product.unitsPerPackage ∧
        m.unitPrice = product.unitSalePrice ∧
        m.totalValue = salePriceOf data.saleType product * data.quantity ∧
        (data.saleType = .UNIT → m.totalValue = m.unitPrice * m.quantity)) := by
  refine ⟨?_, ?_, ?_⟩
  · intro st user data m st' h
    obtain ⟨product0, hfind0, hout, hm, hprod, hmov, hdebts⟩ :=
      createStockMovement_ok_elim h
    subst hm
    refine ⟨rfl, ?_⟩
    intro product hfind
    have : product0 = product := Option.some.inj (hfind0.symm.trans hfind)
    rw [this]
  · intro st user data ms st' h
    obtain ⟨hadj, hfold⟩ := bulkAdjustment_ok_elim h
    have hms : ms = (data.adjustments.foldl
        (bulkStep (st.products.filter fun p =>
          (data.adjustments.map fun a => a.productId).contains p.id &&
            p.storeId == data.storeId) user data.storeId) ([], st)).1 := by
      rw [← hfold]
    rw [hms]
    exact foldl_bulkStep_movements_good _ user data.storeId data.adjustments
      ([], st) (by intro m hm; simp at hm)
  · intro st user data saleId debtId product sale st' hfind h
    obtain ⟨product0, hfind0, hq, hauth, hstock, htot, hprod, hmov, hdebts⟩ :=
      createSale_ok_elim h
    have hpp : product0 = product := Option.some.inj (hfind0.symm.trans hfind)
    subst hpp
    refine ⟨_, hmov, rfl, rfl, htot, ?_⟩
    intro hu
    show sale.totalAmount = product0.unitSalePrice *
      requiredStockOf data.saleType data.quantity product0.unitsPerPackage
    rw [htot, hu]
    simp [salePriceOf, requiredStockOf]

/-- Witness for `movement_totalValue_spec`: the generic-path IN movement of 4
units on the scenario product prices `totalValue = 100 * 4` with the
fallback unit price. -/
theorem movement_totalValue_spec_witness :
    createStockMovement baseState sellerUser inInput4 = .ok (inMovement4, inState4) ∧
    inMovement4.totalValue = inMovement4.unitPrice * inMovement4.quantity ∧
    inMovement4.unitPrice = inInput4.unitPrice.getD scenarioProduct.unitSalePrice :=
  ⟨by rfl,
    (movement_totalValue_spec.1 baseState sellerUser inInput4 inMovement4 inState4
      (by rfl)).1,
    (movement_totalValue_spec.1 baseState sellerUser inInput4 inMovement4 inState4
      (by rfl)).2 scenarioProduct (by decide)⟩

/-- Counterexample for C7 as stated: the Scenario 2 PACKAGE sale writes an
OUT movement with `quantity = 5`, `unitPrice = 100` (the unit sale price) and
`totalValue = 450` (the sale total at the package price), so
`totalValue ≠ unitPrice * |quantity| = 500`. -/
theorem movement_totalValue_package_cex :
    (match createSale baseState sellerUser saleInputPackage1 "sale-1" "debt-1" with
      | .ok r => r.2.movements
      | .error _ => []) = [packageSaleMovement] ∧
    packageSaleMovement.unitPrice = scenarioProduct.unitSalePrice ∧
    packageSaleMovement.totalValue ≠
      packageSaleMovement.unitPrice * |packageSaleMovement.quantity| := by
  refine ⟨by rfl, by rfl, by decide⟩

/-! Lemmas about the sync push pipeline. -/

theorem unsupported_table_ne (s : String) :
    ("Unsupported table: " ++ s) ≠ "Unauthorized store access" := by
  intro h
  have h2 : ("Unsupported table: " ++ s).data = ("Unauthorized store access").data :=
    congrArg String.data h
  have h3 : ("Unsupported table: " ++ s).data =
      'U' :: 'n' :: 's' :: ("upported table: ".data ++ s.data) := rfl
  have h4 : ("Unauthorized store access").data =
      'U' :: 'n' :: 'a' :: "uthorized store access".data := rfl
  rw [h3, h4] at h2
  simp at h2

theorem createRecord_error {table : List SyncRecord} {rid : String}
    {s o : Option String} {d : SyncData} {e : String}
    (h : createRecord table rid s o d = .error e) : e = "Unique constraint failed" := by
  unfold createRecord at h
  split at h
  · exact (Except.error.inj h).symm
  · exact absurd h (by simp)

theorem updateRecord_error {table : List SyncRecord} {rid : String} {d : SyncData}
    {e : String} (h : updateRecord table rid d = .error e) :
    e = "Record to update not found" := by
  unfold updateRecord at h
  split at h
  · exact absurd h (by simp)
  · exact (Except.error.inj h).symm

theorem deactivateRecord_error {table : List SyncRecord} {rid : String} {e : String}
    (h : deactivateRecord table rid = .error e) : e = "Record to update not found" := by
  unfold deactivateRecord at h
  split at h
  · exact absurd h (by simp)
  · exact (Except.error.inj h).symm

theorem createRecord_ok_mem {table : List SyncRecord} {rid : String}
    {s o : Option String} {d : SyncData} {t : List SyncRecord}
    (h : createRecord table rid s o d = .ok t) :
    ∀ x ∈ t, x ∈ table ∨ x.storeId = s := by
  unfold createRecord at h
  split at h
  · exact absurd h (by simp)
  have ht := (Except.ok.inj h).symm
  subst ht
  intro x hx
  rcases List.mem_append.mp hx with h1 | h2
  · exact Or.inl h1
  · right
    have hx2 : x = { id := rid, storeId := s, owner := o, isActive := true, data := d } := by
      simpa using h2
    rw [hx2]

theorem tableOp_shape (rid : String) (op : Except String (List SyncRecord))
    (mk : List SyncRecord → SyncTables)
    (hop : ∀ e, op = .error e → e ≠ "Unauthorized store access") :
    resultError (tableOp rid op mk) ≠ some "Unauthorized store access" ∧
    ∀ r, tableOp rid op mk = .ok r → r.1.recordId = rid ∧ r.1.error = none := by
  cases op with
  | error e =>
    constructor
    · intro hc
      exact hop e rfl (Option.some.inj hc)
    · intro r h
      exact Except.noConfusion h
  | ok t =>
    constructor
    · intro hc
      simp [tableOp, resultError, syncSuccess] at hc
    · intro r h
      have hr := Except.ok.inj h
      rw [← hr]
      exact ⟨rfl, rfl⟩

theorem tableOp_ok_elim {rid : String} {op : Except String (List SyncRecord)}
    {mk : List SyncRecord → SyncTables} {r : SyncResult × SyncTables}
    (h : tableOp rid op mk = .ok r) :
    ∃ t, op = .ok t ∧ r = (syncSuccess rid, mk t) := by
  unfold tableOp at h
  split at h
  · exact absurd h (by simp)
  rename_i t
  exact ⟨t, rfl, (Except.ok.inj h).symm⟩

theorem handleProductSync_shape (tables : SyncTables) (item : SyncItem) (uid : String)
    (sid : Option String) :
    resultError (handleProductSync tables item uid sid) ≠
      some "Unauthorized store access" ∧
    ∀ r, handleProductSync tables item uid sid = .ok r →
      r.1.recordId = item.recordId ∧ r.1.error = none := by
  rcases item with ⟨a, tn, rid, dd⟩
  cases a
  · exact tableOp_shape rid _ _ (fun e he => by rw [createRecord_error he]; decide)
  · exact tableOp_shape rid _ _ (fun e he => by rw [updateRecord_error he]; decide)
  · exact tableOp_shape rid _ _ (fun e he => by rw [deactivateRecord_error he]; decide)

theorem handleSaleSync_shape (tables : SyncTables) (item : SyncItem) (uid : String)
    (sid : Option String) :
    resultError (handleSaleSync tables item uid sid) ≠
      some "Unauthorized store access" ∧
    ∀ r, handleSaleSync tables item uid sid = .ok r →
      r.1.recordId = item.recordId ∧ r.1.error = none := by
  rcases item with ⟨a, tn, rid, dd⟩
  cases a
  · exact tableOp_shape rid _ _ (fun e he => by rw [createRecord_error he]; decide)
  · exact tableOp_shape rid _ _ (fun e he => by rw [updateRecord_error he]; decide)
  · constructor
    · intro hc
      exact absurd (Option.some.inj hc) (by decide)
    · intro r h
      exact Except.noConfusion h

theorem handleStockMovementSync_shape (tables : SyncTables) (item : SyncItem)
    (uid : String) (sid : Option String) :
    resultError (handleStockMovementSync tables item uid sid) ≠
      some "Unauthorized store access" ∧
    ∀ r, handleStockMovementSync tables item uid sid = .ok r →
      r.1.recordId = item.recordId ∧ r.1.error = none := by
  rcases item with ⟨a, tn, rid, dd⟩
  cases a
  · exact tableOp_shape rid _ _ (fun e he => by rw [createRecord_error he]; decide)
  · constructor
    · intro hc
      exact absurd (Option.some.inj hc) (by decide)
    · intro r h
      exact Except.noConfusion h
  · constructor
    · intro hc
      exact absurd (Option.some.inj hc) (by decide)
    · intro r h
      exact Except.noConfusion h

theorem handleDebtSync_shape (tables : SyncTables) (item : SyncItem) (uid : String)
    (sid : Option String) :
    resultError (handleDebtSync tables item uid sid) ≠
      some "Unauthorized store access" ∧
    ∀ r, handleDebtSync tables item uid sid = .ok r →
      r.1.recordId = item.recordId ∧ r.1.error = none := by
  rcases item with ⟨a, tn, rid, dd⟩
  cases a
  · exact tableOp_shape rid _ _ (fun e he => by rw [createRecord_error he]; decide)
  · exact tableOp_shape rid _ _ (fun e he => by rw [updateRecord_error he]; decide)
  · constructor
    · intro hc
      exact absurd (Option.some.inj hc) (by decide)
    · intro r h
      exact Except.noConfusion h

theorem pushDispatch_shape (tables : SyncTables) (user : AuthUser) (item : SyncItem) :
    resultError (pushDispatch tables user item) ≠ some "Unauthorized store access" ∧
    ∀ r, pushDispatch tables user item = .ok r → r.1.recordId = item.recordId := by
  unfold pushDispatch
  split_ifs with h1 h2 h3 h4
  · exact ⟨(handleProductSync_shape tables item user.id user.storeId).1,
      fun r h => ((handleProductSync_shape tables item user.id user.storeId).2 r h).1⟩
  · exact ⟨(handleSaleSync_shape tables item user.id user.storeId).1,
      fun r h => ((handleSaleSync_shape tables item user.id user.storeId).2 r h).1⟩
  · exact ⟨(handleStockMovementSync_shape tables item user.id user.storeId).1,
      fun r h => ((handleStockMovementSync_shape tables item user.id user.storeId).2 r h).1⟩
  · exact ⟨(handleDebtSync_shape tables item user.id user.storeId).1,
      fun r h => ((handleDebtSync_shape tables item user.id user.storeId).2 r h).1⟩
  · constructor
    · intro hc
      exact unsupported_table_ne item.tableName (Option.some.inj hc)
    · intro r h
      have hr := Except.ok.inj h
      rw [← hr]

theorem pushOne_shape (tables : SyncTables) (user : AuthUser) (item : SyncItem) :
    (pushOne tables user item).1.recordId = item.recordId ∧
    (jsTruthyStr item.data.storeId = false →
      (pushOne tables user item).1.error ≠ some "Unauthorized store access") := by
  by_cases hcond : (jsTruthyStr item.data.storeId && item.data.storeId != user.storeId &&
      !(user.role == Role.ADMIN)) = true
  · have hpo : pushOne tables user item =
        ({ recordId := item.recordId, status := "error",
           error := some "Unauthorized store access" }, tables) := by
      unfold pushOne
      rw [if_pos hcond]
    rw [hpo]
    refine ⟨rfl, ?_⟩
    intro hfalse
    rw [hfalse] at hcond
    simp at hcond
  · have hpo : pushOne tables user item =
        (match pushDispatch tables user item with
         | .ok r => r
         | .error msg =>
           ({ recordId := item.recordId, status := "error", error := some msg },
             tables)) := by
      unfold pushOne
      rw [if_neg hcond]
    rw [hpo]
    cases hd : pushDispatch tables user item with
    | ok r =>
      constructor
      · exact (pushDispatch_shape tables user item).2 r hd
      · intro _ hc
        exact (pushDispatch_shape tables user item).1 (by rw [hd]; exact hc)
    | error msg =>
      constructor
      · rfl
      · intro _ hc
        have hmsg : msg = "Unauthorized store access" := Option.some.inj hc
        exact (pushDispatch_shape tables user item).1 (by rw [hd, hmsg]; rfl)

/-- C6: the push loop returns exactly one result per input item, in order
(each result carries its item's recordId); processing is sequential with
per-item isolation — the outcome of the head item never aborts the tail,
which continues from the head's resulting state; and in Scenario 6 the
cross-tenant CREATE sale is reported as the unauthorized error while the
valid CREATE stock movement in the same batch succeeds and its record is
persisted. -/
theorem sync_push_isolation :
    (∀ (tables : SyncTables) (user : AuthUser) (items : List SyncItem),
      List.Forall₂ (fun (r : SyncResult) (it : SyncItem) => r.recordId = it.recordId)
        (pushBatch tables user items).1 items) ∧
    (∀ (tables : SyncTables) (user : AuthUser) (item : SyncItem) (rest : List SyncItem),
      pushBatch tables user (item :: rest) =
        ((pushOne tables user item).1 ::
            (pushBatch (pushOne tables user item).2 user rest).1,
          (pushBatch (pushOne tables user item).2 user rest).2)) ∧
    (∀ (tables : SyncTables) (user : AuthUser) (item : SyncItem) (msg : String),
      (jsTruthyStr item.data.storeId && item.data.storeId != user.storeId &&
        !(user.role == Role.ADMIN)) = false →
      pushDispatch tables user item = .error msg →
      pushOne tables user item =
        ({ recordId := item.recordId, status := "error", error := some msg }, tables)) ∧
    ((pushBatch s6Tables sellerUser [s6Item1, s6Item2]).1 =
      [{ recordId := "r1", status := "error", error := some "Unauthorized store access" },
       { recordId := "r2", status := "success", error := none }] ∧
     (pushBatch s6Tables sellerUser [s6Item1, s6Item2]).2.stockMovements =
      [{ id := "r2", storeId := some "store-1", owner := some "user-1",
         isActive := true, data := s6Item2.data }]) := by
  refine ⟨?_, ?_, ?_, by decide, by decide⟩
  · intro tables user items
    induction items generalizing tables with
    | nil => exact List.Forall₂.nil
    | cons item rest ih =>
      show List.Forall₂ _
        ((pushOne tables user item).1 ::
          (pushBatch (pushOne tables user item).2 user rest).1) (item :: rest)
      exact List.Forall₂.cons (pushOne_shape tables user item).1 (ih _)
  · intro tables user item rest
    rfl
  · intro tables user item msg hcond hd
    unfold pushOne
    rw [if_neg (by simp [hcond]), hd]

/-- Witness for `sync_push_isolation`: a DELETE-sale item throws in its
handler and the push loop catches the exception and reports it as this
item's error result, leaving the tables untouched. -/
theorem sync_push_isolation_witness :
    ((jsTruthyStr s6ItemBad.data.storeId && s6ItemBad.data.storeId != sellerUser.storeId &&
        !(sellerUser.role == Role.ADMIN)) = false ∧
      pushDispatch s6Tables sellerUser s6ItemBad =
        .error "Unsupported action: DELETE for sales") ∧
    pushOne s6Tables sellerUser s6ItemBad =
      ({ recordId := "r3", status := "error",
         error := some "Unsupported action: DELETE for sales" }, s6Tables) :=
  ⟨⟨by decide, by rfl⟩,
    sync_push_isolation.2.2.1 s6Tables sellerUser s6ItemBad
      "Unsupported action: DELETE for sales" (by decide) (by rfl)⟩

/-! The CREATE handlers persist records whose storeId defaults to the
caller's store when the payload carries none. -/

theorem pushDispatch_create_storeId {tables : SyncTables} {user : AuthUser}
    {item : SyncItem} {r : SyncResult × SyncTables}
    (hact : item.action = .CREATE)
    (h : jsTruthyStr item.data.storeId = false)
    (hd : pushDispatch tables user item = .ok r) :
    ∀ x ∈ allRecords r.2, x ∈ allRecords tables ∨ x.storeId = user.storeId := by
  rcases item with ⟨a, tn, rid, dd⟩
  have ha : a = .CREATE := hact
  subst ha
  have hjs : jsOrOptString dd.storeId user.storeId = user.storeId :=
    jsOrOptString_of_falsy h
  unfold pushDispatch at hd
  split_ifs at hd with h1 h2 h3 h4
  · dsimp only [handleProductSync] at hd
    obtain ⟨t, hop, hr⟩ := tableOp_ok_elim hd
    subst hr
    have hmem := createRecord_ok_mem hop
    intro x hx
    simp only [allRecords, List.mem_append] at hx ⊢
    rcases hx with ((hx | hx) | hx) | hx
    · rcases hmem x hx with hin | hsid
      · exact Or.inl (Or.inl (Or.inl (Or.inl hin)))
      · exact Or.inr (by rw [hsid, hjs])
    · exact Or.inl (Or.inl (Or.inl (Or.inr hx)))
    · exact Or.inl (Or.inl (Or.inr hx))
    · exact Or.inl (Or.inr hx)
  · dsimp only [handleSaleSync] at hd
    obtain ⟨t, hop, hr⟩ := tableOp_ok_elim hd
    subst hr
    have hmem := createRecord_ok_mem hop
    intro x hx
    simp only [allRecords, List.mem_append] at hx ⊢
    rcases hx with ((hx | hx) | hx) | hx
    · exact Or.inl (Or.inl (Or.inl (Or.inl hx)))
    · rcases hmem x hx with hin | hsid
      · exact Or.inl (Or.inl (Or.inl (Or.inr hin)))
      · exact Or.inr (by rw [hsid, hjs])
    · exact Or.inl (Or.inl (Or.inr hx))
    · exact Or.inl (Or.inr hx)
  · dsimp only [handleStockMovementSync] at hd
    obtain ⟨t, hop, hr⟩ := tableOp_ok_elim hd
    subst hr
    have hmem := createRecord_ok_mem hop
    intro x hx
    simp only [allRecords, List.mem_append] at hx ⊢
    rcases hx with ((hx | hx) | hx) | hx
    · exact Or.inl (Or.inl (Or.inl (Or.inl hx)))
    · exact Or.inl (Or.inl (Or.inl (Or.inr hx)))
    · rcases hmem x hx with hin | hsid
      · exact Or.inl (Or.inl (Or.inr hin))
      · exact Or.inr (by rw [hsid, hjs])
    · exact Or.inl (Or.inr hx)
  · dsimp only [handleDebtSync] at hd
    obtain ⟨t, hop, hr⟩ := tableOp_ok_elim hd
    subst hr
    have hmem := createRecord_ok_mem hop
    intro x hx
    simp only [allRecords, List.mem_append] at hx ⊢
    rcases hx with ((hx | hx) | hx) | hx
    · exact Or.inl (Or.inl (Or.inl (Or.inl hx)))
    · exact Or.inl (Or.inl (Or.inl (Or.inr hx)))
    · exact Or.inl (Or.inl (Or.inr hx))
    · rcases hmem x hx with hin | hsid
      · exact Or.inl (Or.inr hin)
      · exact Or.inr (by rw [hsid, hjs])
  · have hr := Except.ok.inj hd
    rw [← hr]
    intro x hx
    exact Or.inl hx

/-- C10: the per-item store-authorization check of the sync push only fires
when the pushed payload carries a (truthy) `storeId`: an item without one is
never answered with the "Unauthorized store access" error, whatever the
caller's role, and any record a CREATE handler persists for it has its
`storeId` defaulted to the caller's own storeId. -/
theorem sync_push_missing_storeId (tables : SyncTables) (user : AuthUser)
    (item : SyncItem) (h : jsTruthyStr item.data.storeId = false) :
    (pushOne tables user item).1.error ≠ some "Unauthorized store access" ∧
    (item.action = .CREATE →
      ∀ x ∈ allRecords (pushOne tables user item).2,
        x ∈ allRecords tables ∨ x.storeId = user.storeId) := by
  have hcond : ¬ ((jsTruthyStr item.data.storeId &&
      item.data.storeId != user.storeId && !(user.role == Role.ADMIN)) = true) := by
    simp [h]
  have hpo : pushOne tables user item =
      (match pushDispatch tables user item with
       | .ok r => r
       | .error msg =>
         ({ recordId := item.recordId, status := "error", error := some msg },
           tables)) := by
    unfold pushOne
    rw [if_neg hcond]
  constructor
  · exact (pushOne_shape tables user item).2 h
  · intro hact x hx
    rw [hpo] at hx
    cases hd : pushDispatch tables user item with
    | error msg =>
      rw [hd] at hx
      exact Or.inl hx
    | ok r =>
      rw [hd] at hx
      exact pushDispatch_create_storeId hact h hd x hx

/-- Witness for `sync_push_missing_storeId`: a CREATE product item with no
storeId in its payload is not rejected and its persisted record carries the
caller's storeId. -/
theorem sync_push_missing_storeId_witness :
    jsTruthyStr missingStoreItem.data.storeId = false ∧
    (pushOne s6Tables sellerUser missingStoreItem).1.error ≠
      some "Unauthorized store access" ∧
    (missingStoreItem.action = .CREATE →
      ∀ x ∈ allRecords (pushOne s6Tables sellerUser missingStoreItem).2,
        x ∈ allRecords s6Tables ∨ x.storeId = sellerUser.storeId) :=
  ⟨by decide,
    (sync_push_missing_storeId s6Tables sellerUser missingStoreItem (by decide)).1,
    (sync_push_missing_storeId s6Tables sellerUser missingStoreItem (by decide)).2⟩

/-! The retry endpoint. -/

theorem retrySelects_iff (u : String) (it : QueueItem) :
    retrySelects u it = true ↔
      it.userId = u ∧ it.status = SyncStatus.FAILED ∧ it.attempts < 3 := by
  simp [retrySelects, Bool.and_eq_true, beq_iff_eq, decide_eq_true_eq, and_assoc]

theorem forall2_map_self_of_mem {α β : Type} (R : β → α → Prop) (f : α → β)
    (l : List α) (h : ∀ x ∈ l, R (f x) x) : List.Forall₂ R (l.map f) l := by
  induction l with
  | nil => exact List.Forall₂.nil
  | cons a t ih =>
    exact List.Forall₂.cons (h a (List.mem_cons_self a t))
      (ih fun x hx => h x (List.mem_cons_of_mem a hx))

/-- C8 (amended): `retryFailedItems` selects exactly the caller's FAILED
queue items with `attempts < 3` — the literal 3 of the handler, regardless
of each row's own `maxAttempts` — resets each selected item to PENDING with
`attempts + 1` and the error cleared, leaves every other item (including
FAILED items at `attempts >= 3`) untouched, and merely reports the selected
items as "queued" without resubmitting them through the push path (the
endpoint performs no further processing). -/
theorem retry_spec (q : List QueueItem) (u : String) :
    List.Forall₂ (fun (n o : QueueItem) =>
      ((o.userId = u ∧ o.status = SyncStatus.FAILED ∧ o.attempts < 3) →
        n = { o with status := SyncStatus.PENDING,
                     attempts := o.attempts + 1,
                     error := none }) ∧
      (¬ (o.userId = u ∧ o.status = SyncStatus.FAILED ∧ o.attempts < 3) → n = o))
      (retryFailedItems q u).2 q ∧
    List.Forall₂ (fun (r : RetryResult) (o : QueueItem) =>
      r.id = o.id ∧ r.status = "queued" ∧ r.error = none ∧
      o.userId = u ∧ o.status = SyncStatus.FAILED ∧ o.attempts < 3)
      (retryFailedItems q u).1 (q.filter (retrySelects u)) := by
  constructor
  · apply forall2_map_self_of_mem
    intro it _
    constructor
    · intro hsel
      rw [if_pos ((retrySelects_iff u it).mpr hsel)]
    · intro hnot
      rw [if_neg fun hs => hnot ((retrySelects_iff u it).mp hs)]
  · apply forall2_map_self_of_mem
    intro it hit
    have hsel : retrySelects u it = true := List.of_mem_filter hit
    have hprops := (retrySelects_iff u it).mp hsel
    exact ⟨rfl, rfl, rfl, hprops.1, hprops.2.1, hprops.2.2⟩

/-- Counterexample for C8 as stated: a FAILED item of the caller with
`attempts = 4 < maxAttempts = 10` should be selected and reset according to
the claim, but the handler compares against the literal 3, so the retry
returns no result for it and leaves the queue unchanged (in particular
nothing is resubmitted). -/
theorem retry_ignores_maxAttempts_cex :
    stuckQueueItem.status = SyncStatus.FAILED ∧
    stuckQueueItem.attempts < stuckQueueItem.maxAttempts ∧
    retryFailedItems [stuckQueueItem] "user-1" = ([], [stuckQueueItem]) := by
  refine ⟨rfl, by decide, by decide⟩

end Vukanet
